import Mathlib

/-!
# Verification of the pms request-approval workflow engine

Shallow embedding of the approval-workflow core of the `pms` repository:

* `pms-be/requisition/models.py` — the `Request` model: status transition
  table, approval-chain resolution, next-approver computation, and the
  `transition_to` operation with its approval-history side effect;
* `pms-be/requisition/views.py` — the `RequestViewSet` actions `approve`,
  `reject` and `submit` (validation order, error responses, mutations);
* `pms-be/authentication/models.py` — the `User` supervisor hierarchy:
  `get_hierarchy_chain`, `_validate_supervisor_assignment`,
  `change_supervisor`;
* `pms-be/requisition/archive_service.py` —
  `get_completed_requests_in_period`.

Users are identified by natural-number ids; the mutable supervisor graph is
a function `UserId → Option UserId` (the `supervisor` foreign key).  Loops
that the Python code runs over the (finite) user table are embedded with an
explicit fuel argument: a result `none` means the loop did not finish within
the given fuel, and `∀ fuel, ... = none` means the source loop diverges.
-/

deriving instance DecidableEq for Except

/-- User primary key (`authentication.User.id`). -/
abbrev UserId := Nat

/-- The `status` column of `requisition.Request` (`STATUS_CHOICES`). -/
inductive Status
  | draft
  | pending
  | in_review
  | revision_requested
  | approved
  | rejected
  | purchasing
  | ordered
  | delivered
  | completed
deriving DecidableEq, Repr, Fintype

/-- The workflow-relevant columns of a `requisition.Request` row.
`approval_level` and `last_approver` are not declared in
`requisition/models.py` as present in the repository, but they are read and
written by `requisition/views.py`, asserted by the repository's own tests,
and declared in the spec's data model (§3); they are modelled from the spec:
`approval_level` a non-negative integer counting approvals in the current
submission cycle (default 0), `last_approver` a nullable user reference. -/
structure Request where
  created_by : UserId
  status : Status
  current_approver : Option UserId
  approval_level : Nat
  last_approver : Option UserId
  revision_count : Nat
  submitted_at : Option Nat
  updated_at : Nat
deriving DecidableEq, Repr

/-- One `ApprovalHistory` row as created by `transition_to` /
`RequestViewSet.approve` (the `request` foreign key and timestamp are
implicit in where the row is returned). -/
structure HistEntry where
  user : UserId
  action : String
  level : Nat
  notes : String
deriving DecidableEq, Repr

/-- The persisted supervisor graph: `supervisor_id` column per user. -/
abbrev SupGraph := UserId → Option UserId

/-- `n`-fold iteration of the supervisor edge, used to express
reachability in the hierarchy ("B is a direct or transitive subordinate
of A" means some iterate of `supervisor` starting at B hits A). -/
def supIterate (g : SupGraph) : UserId → Nat → Option UserId
  | u, 0 => some u
  | u, n + 1 =>
    match g u with
    | none => none
    | some s => supIterate g s n

/-- The unguarded supervisor walk of `Request.get_approval_chain`
(`requisition/models.py`):

```python
chain = []
current = self.created_by.supervisor
while current:
    chain.append(current)
    current = current.supervisor
return chain
```

There is no visited-set guard; the walk is embedded with fuel, and
`none` at every fuel means the Python loop never terminates. -/
def approvalChainWalk (g : SupGraph) : Option UserId → Nat → Option (List UserId)
  | none, _ => some []
  | some _, 0 => none
  | some u, fuel + 1 => (approvalChainWalk g (g u) fuel).map (fun l => u :: l)

/-- `Request.get_approval_chain` — the chain starts at the creator's
supervisor. -/
def getApprovalChain (g : SupGraph) (createdBy : UserId) (fuel : Nat) :
    Option (List UserId) :=
  approvalChainWalk g (g createdBy) fuel

/-- Resolution of the pending approver from a computed chain, the second
half of `Request.get_next_approver`:

```python
if not self.current_approver:
    return chain[0] if chain else None
try:
    current_index = chain.index(self.current_approver)
    return chain[current_index + 1] if current_index + 1 < len(chain) else None
except ValueError:
    return None
``` -/
def nextFromChain (chain : List UserId) : Option UserId → Option UserId
  | none => chain.head?
  | some ca =>
    match chain.indexOf? ca with
    | none => none
    | some i => chain.get? (i + 1)

/-- `Request.get_next_approver` (`requisition/models.py`).  The outer
`Option` is chain-computation fuel (`none` = the chain walk diverged);
the inner `Option` is the approver or Python `None`. -/
def getNextApprover (g : SupGraph) (fuel : Nat) (r : Request) :
    Option (Option UserId) :=
  if r.status = Status.draft then
    some (g r.created_by)
  else
    match getApprovalChain g r.created_by fuel with
    | none => none
    | some chain => some (nextFromChain chain r.current_approver)

/-- `Request.get_valid_transitions` (`requisition/models.py`) — the static
transition table, transcribed entry for entry. -/
def getValidTransitions : Status → List Status
  | Status.draft => [Status.pending]
  | Status.pending =>
      [Status.in_review, Status.approved, Status.rejected, Status.revision_requested]
  | Status.in_review =>
      [Status.in_review, Status.approved, Status.rejected, Status.revision_requested]
  | Status.revision_requested => [Status.pending]
  | Status.approved => [Status.purchasing, Status.rejected]
  | Status.purchasing => [Status.ordered, Status.rejected, Status.revision_requested]
  | Status.ordered => [Status.delivered]
  | Status.delivered => [Status.completed]
  | Status.rejected => []
  | Status.completed => []

/-- `Request.can_transition_to`. -/
def canTransitionTo (s t : Status) : Bool :=
  t ∈ getValidTransitions s

/-- The `action_map` of `Request.transition_to`: history action recorded
for each target status (with `action_map.get(new_status, new_status)`
falling back to the status name itself). -/
def actionMap : Status → String
  | Status.pending => "submitted"
  | Status.in_review => "approved"
  | Status.approved => "final_approved"
  | Status.rejected => "rejected"
  | Status.revision_requested => "revision_requested"
  | Status.purchasing => "assigned_purchasing"
  | Status.ordered => "ordered"
  | Status.delivered => "delivered"
  | Status.completed => "completed"
  | Status.draft => "draft"

/-- `Request.get_approval_level(user)` — 1-based position of `user` in the
approval chain, or 0 when `user` is not in the chain. -/
def approvalLevelIn (chain : List UserId) (user : UserId) : Nat :=
  match chain.indexOf? user with
  | some i => i + 1
  | none => 0

/-- Error raised by `Request.transition_to`:
`ValueError(f"Invalid transition from '{self.status}' to '{new_status}'")`
— the payload is the named (from, to) pair. -/
structure TransError where
  fromStatus : Status
  toStatus : Status
deriving DecidableEq, Repr

/-- `Request.transition_to` (`requisition/models.py`).  Validation happens
before any mutation: an invalid transition raises with the (from, to) pair
and the request row is left untouched (the error branch carries no state).
On success the status is updated, `current_approver` is (re)set when the
target is `pending`, and one `ApprovalHistory` row is appended.  The outer
`Option` is chain-walk fuel. -/
def transitionTo (g : SupGraph) (fuel : Nat) (r : Request) (newStatus : Status)
    (user : UserId) (notes : String) :
    Option (Except TransError (Request × HistEntry)) :=
  if canTransitionTo r.status newStatus = false then
    some (Except.error { fromStatus := r.status, toStatus := newStatus })
  else
    match getApprovalChain g r.created_by fuel with
    | none => none
    | some chain =>
      let oldStatus := r.status
      let r1 : Request := { r with status := newStatus }
      let r2 : Request :=
        if newStatus = Status.pending then
          if oldStatus = Status.draft then
            { r1 with current_approver := g r.created_by }
          else if oldStatus = Status.revision_requested then
            match r1.current_approver with
            | some ca =>
              if ca ∈ chain then r1
              else { r1 with current_approver := chain.head? }
            | none => { r1 with current_approver := chain.head? }
          else r1
        else r1
      some (Except.ok (r2,
        { user := user, action := actionMap newStatus,
          level := approvalLevelIn chain user, notes := notes }))

/-- Modelled from the spec: `Request.is_fully_approved` is called by
`RequestViewSet.approve` and asserted by the repository's own tests, but
its definition is missing from `requisition/models.py` as shipped in the
repository; spec §4.3 defines it as `next_approver(request) is None`. -/
def isFullyApproved (g : SupGraph) (fuel : Nat) (r : Request) : Option Bool :=
  (getNextApprover g fuel r).map Option.isNone

/-- The distinct error responses of `RequestViewSet.approve`
(`requisition/views.py`).  Both `alreadyFullyApproved` sources render the
message "This request is already fully approved": one fires when
`status == 'approved'`, the other when the actor mismatches and
`get_next_approver()` is `None`. -/
inductive ApproveError
  | draftNotSubmitted
  | alreadyFullyApproved
  | invalidState (s : Status)
  | notNextApprover (expected : UserId)
  | invalidTransition (e : TransError)
deriving DecidableEq, Repr

/-- `RequestViewSet.approve` (`requisition/views.py`).  Validation order:
(1) source status must be `pending` or `in_review` (with specific error
messages for `draft` and `approved`); (2) the actor must equal
`get_next_approver()` or be a superuser — on mismatch the response names
the expected approver when one exists, otherwise reports the request as
already fully approved.  Both checks happen before the transaction, so a
failed attempt mutates nothing (the error branches carry no state).  On
success `last_approver` and `approval_level` are updated, the new status
is `approved` or `in_review` depending on `is_fully_approved`, and one
history row is recorded. -/
def approveView (g : SupGraph) (fuel : Nat) (r : Request) (actor : UserId)
    (isAdmin : Bool) (notes : String) :
    Option (Except ApproveError (Request × HistEntry)) :=
  if ¬ (r.status = Status.pending ∨ r.status = Status.in_review) then
    some (Except.error
      (if r.status = Status.draft then ApproveError.draftNotSubmitted
       else if r.status = Status.approved then ApproveError.alreadyFullyApproved
       else ApproveError.invalidState r.status))
  else
    match getNextApprover g fuel r with
    | none => none
    | some na =>
      if na ≠ some actor ∧ isAdmin = false then
        some (Except.error
          (match na with
           | some expected => ApproveError.notNextApprover expected
           | none => ApproveError.alreadyFullyApproved))
      else
        let r1 : Request :=
          { r with last_approver := some actor,
                   approval_level := r.approval_level + 1 }
        match isFullyApproved g fuel r1 with
        | none => none
        | some full =>
          let newStatus := if full then Status.approved else Status.in_review
          if r1.status ≠ newStatus then
            match transitionTo g fuel r1 newStatus actor notes with
            | none => none
            | some (Except.error e) =>
              some (Except.error (ApproveError.invalidTransition e))
            | some (Except.ok res) => some (Except.ok res)
          else
            some (Except.ok (r1,
              { user := actor, action := "approved",
                level := r1.approval_level, notes := notes }))

/-- The error responses of `RequestViewSet.reject`. -/
inductive RejectError
  | invalidState (s : Status)
  | notAuthorized
  | invalidTransition (e : TransError)
deriving DecidableEq, Repr

/-- `RequestViewSet.reject` (`requisition/views.py`).  Requires source
status in `{pending, in_review, approved, purchasing}` and the actor to be
`get_next_approver()` or a superuser; the view consults no other
capability — in particular it never reads `can_purchase()`.  On success it
transitions to the terminal `rejected` status, recording a history row. -/
def rejectView (g : SupGraph) (fuel : Nat) (r : Request) (actor : UserId)
    (isAdmin : Bool) (notes : String) :
    Option (Except RejectError (Request × HistEntry)) :=
  if ¬ (r.status = Status.pending ∨ r.status = Status.in_review ∨
        r.status = Status.approved ∨ r.status = Status.purchasing) then
    some (Except.error (RejectError.invalidState r.status))
  else
    match getNextApprover g fuel r with
    | none => none
    | some na =>
      if na ≠ some actor ∧ isAdmin = false then
        some (Except.error RejectError.notAuthorized)
      else
        match transitionTo g fuel r Status.rejected actor notes with
        | none => none
        | some (Except.error e) =>
          some (Except.error (RejectError.invalidTransition e))
        | some (Except.ok res) => some (Except.ok res)

/-- The error responses of `RequestViewSet.submit`. -/
inductive SubmitError
  | notCreator
  | invalidState (s : Status)
  | invalidTransition (e : TransError)
deriving DecidableEq, Repr

/-- `RequestViewSet.submit` (`requisition/views.py`).  Requires the actor
to be the creator and the status to be `draft` or `revision_requested`;
then runs `transition_to('pending', ...)` and stamps `submitted_at`.
Neither the view nor `transition_to` touches `approval_level` or
`last_approver`. -/
def submitView (g : SupGraph) (fuel : Nat) (r : Request) (actor : UserId)
    (notes : String) (now : Nat) :
    Option (Except SubmitError (Request × HistEntry)) :=
  if r.created_by ≠ actor then
    some (Except.error SubmitError.notCreator)
  else if ¬ (r.status = Status.draft ∨ r.status = Status.revision_requested) then
    some (Except.error (SubmitError.invalidState r.status))
  else
    match transitionTo g fuel r Status.pending actor notes with
    | none => none
    | some (Except.error e) =>
      some (Except.error (SubmitError.invalidTransition e))
    | some (Except.ok (r2, h)) =>
      some (Except.ok ({ r2 with submitted_at := some now }, h))

/-- The guarded supervisor walk of `User.get_hierarchy_chain`
(`authentication/models.py`): it carries a visited set and stops (returning
the chain collected so far) when it meets an already-visited node.  Fuel is
only a recursion bound; the visited-set guard itself needs none. -/
def hierarchyWalk (g : SupGraph) (visited : List UserId) :
    Option UserId → Nat → Option (List UserId)
  | none, _ => some []
  | some c, fuel =>
    if c ∈ visited then some []
    else
      match fuel with
      | 0 => none
      | fuel + 1 =>
        (hierarchyWalk g (c :: visited) (g c) fuel).map (fun l => c :: l)

/-- `User.get_hierarchy_chain` — the chain includes the user themself and
starts the guarded walk at their supervisor with `visited = {self.id}`. -/
def getHierarchyChain (g : SupGraph) (u : UserId) (fuel : Nat) :
    Option (List UserId) :=
  (hierarchyWalk g [u] (g u) fuel).map (fun l => u :: l)

/-- The visited-set loop of `User._validate_supervisor_assignment`
(`authentication/models.py`), including the post-loop revisit check:

```python
visited = set()
current = self.supervisor
while current and current.id not in visited:
    visited.add(current.id)
    if current.supervisor and current.supervisor.id == self.id:
        raise ValueError(...)           # circular supervision detected
    current = current.supervisor
if current and current.id in visited:
    raise ValueError(...)               # existing circular chain
```

Result `some true` = validation passes, `some false` = `ValueError`
raised, `none` = fuel exhausted.  The walk reads only persisted rows (each
`current.supervisor` access fetches from the database), and it raises
before ever stepping onto `self`, so walking the persisted graph is
faithful even though `self.supervisor` was already reassigned in memory. -/
def validateLoopF (g : SupGraph) (selfId : UserId) (visited : List UserId) :
    Option UserId → Nat → Option Bool
  | none, _ => some true
  | some c, fuel =>
    if c ∈ visited then some false
    else
      match fuel with
      | 0 => none
      | fuel + 1 =>
        if g c = some selfId then some false
        else validateLoopF g selfId (c :: visited) (g c) fuel

/-- `User._validate_supervisor_assignment` with the proposed edge
`selfId.supervisor = newSup` in memory: self-supervision is rejected first,
then the upward walk from `newSup` runs. -/
def validateSupervisorAssignment (g : SupGraph) (selfId newSup : UserId)
    (fuel : Nat) : Option Bool :=
  if newSup = selfId then some false
  else validateLoopF g selfId [] (some newSup) fuel

/-- `User.change_supervisor` (`authentication/models.py`).  A no-op when
the supervisor is unchanged (returns `False` without validating); removing
the supervisor skips validation (`save` only validates when
`self.supervisor` is set); otherwise `save()` validates before persisting,
and a raised `ValueError` leaves the persisted graph untouched (the error
branch carries no graph).  The `Bool` is the method's return value. -/
def changeSupervisor (g : SupGraph) (a : UserId) (newSup : Option UserId)
    (fuel : Nat) : Option (Except Unit (SupGraph × Bool)) :=
  if g a = newSup then some (Except.ok (g, false))
  else
    match newSup with
    | none => some (Except.ok (fun u => if u = a then none else g u, true))
    | some b =>
      match validateSupervisorAssignment g a b fuel with
      | none => none
      | some false => some (Except.error ())
      | some true =>
        some (Except.ok (fun u => if u = a then some b else g u, true))

/-- `ArchiveService.get_completed_requests_in_period`
(`requisition/archive_service.py`):

```python
return Request.objects.filter(
    status='completed',
    updated_at__gte=period_start,
    updated_at__lte=period_end
).select_related('created_by', 'last_approver').order_by('created_at')
```

`select_related` only prefetches and `order_by` only reorders; the row
selection is exactly this filter. -/
def getCompletedRequestsInPeriod (db : List Request)
    (periodStart periodEnd : Nat) : List Request :=
  db.filter (fun r =>
    decide (r.status = Status.completed ∧
            periodStart ≤ r.updated_at ∧ r.updated_at ≤ periodEnd))

/-- The static transition table of spec §4.2, written from the spec's own
table (one row per `From` status) for comparison with the source's
`getValidTransitions`. -/
def specTransitionTable : Status → List Status
  | Status.draft => [Status.pending]
  | Status.pending =>
      [Status.in_review, Status.approved, Status.rejected, Status.revision_requested]
  | Status.in_review =>
      [Status.in_review, Status.approved, Status.rejected, Status.revision_requested]
  | Status.revision_requested => [Status.pending]
  | Status.approved => [Status.purchasing, Status.rejected]
  | Status.purchasing => [Status.ordered, Status.rejected, Status.revision_requested]
  | Status.ordered => [Status.delivered]
  | Status.delivered => [Status.completed]
  | Status.rejected => []
  | Status.completed => []

/-- The spec's `next_approver` (§4.3): `chain = approval_chain(created_by)`;
`chain[approval_level]` when `approval_level < len(chain)`, else `None`.
Written from the spec's words for comparison with the source's
`getNextApprover`. -/
def specNextApprover (g : SupGraph) (fuel : Nat) (r : Request) :
    Option (Option UserId) :=
  (getApprovalChain g r.created_by fuel).map (fun chain =>
    if r.approval_level < chain.length then chain.get? r.approval_level
    else none)

/-! ## Concrete fixtures

The spec's §8 scenario hierarchy: employee 1 reports to manager 2 reports
to CEO 3 (no one above 3).  `supNone` is an empty hierarchy; `supCyc` and
`supCycAbove` are corrupted graphs containing a persisted supervisor
cycle. -/

/-- Employee 1 → manager 2 → CEO 3. -/
def supEMC : SupGraph := fun u =>
  if u = 1 then some 2 else if u = 2 then some 3 else none

/-- Nobody has a supervisor. -/
def supNone : SupGraph := fun _ => none

/-- A persisted 2-cycle: 1 and 2 supervise each other. -/
def supCyc : SupGraph := fun u =>
  if u = 1 then some 2 else if u = 2 then some 1 else none

/-- Creator 10 reports to 11; 11 and 12 supervise each other (a persisted
cycle sitting above an otherwise clean user). -/
def supCycAbove : SupGraph := fun u =>
  if u = 10 then some 11 else if u = 11 then some 12
  else if u = 12 then some 11 else none

/-- A fresh draft request created by employee 1. -/
def reqDraft : Request :=
  { created_by := 1, status := Status.draft, current_approver := none,
    approval_level := 0, last_approver := none, revision_count := 0,
    submitted_at := none, updated_at := 0 }

/-- The request produced by `submitView` from `reqDraft` (creator submits
at time 5): status `pending`, `current_approver` set to the immediate
supervisor 2 by `transition_to`. -/
def reqSubmitted : Request :=
  { created_by := 1, status := Status.pending, current_approver := some 2,
    approval_level := 0, last_approver := none, revision_count := 0,
    submitted_at := some 5, updated_at := 0 }

/-- A request of employee 1 sent back for revision after manager 2's
approval cycle had begun: one approval applied, manager 2 recorded. -/
def reqRevision : Request :=
  { created_by := 1, status := Status.revision_requested,
    current_approver := some 2, approval_level := 1, last_approver := some 2,
    revision_count := 1, submitted_at := some 5, updated_at := 0 }

/-- A pending request whose creator 4 has no supervisor: the approval
chain is empty and `get_next_approver` yields `None`. -/
def reqOrphanPending : Request :=
  { created_by := 4, status := Status.pending, current_approver := none,
    approval_level := 0, last_approver := none, revision_count := 0,
    submitted_at := some 1, updated_at := 0 }

/-- A fully approved request of employee 1 (CEO 3 still the stored
routing position's successor basis via `current_approver = 2`). -/
def reqApprovedEMC : Request :=
  { created_by := 1, status := Status.approved, current_approver := some 2,
    approval_level := 2, last_approver := some 3, revision_count := 0,
    submitted_at := some 5, updated_at := 0 }

/-- A request of employee 1 in the `purchasing` stage. -/
def reqPurchasingEMC : Request :=
  { created_by := 1, status := Status.purchasing, current_approver := some 2,
    approval_level := 2, last_approver := some 3, revision_count := 0,
    submitted_at := some 5, updated_at := 0 }

/-- An in-review request whose stored `current_approver` 99 has been
removed from the hierarchy (99 no longer appears in creator 1's chain). -/
def reqGhostApprover : Request :=
  { created_by := 1, status := Status.in_review, current_approver := some 99,
    approval_level := 1, last_approver := some 99, revision_count := 0,
    submitted_at := some 1, updated_at := 0 }

/-- The request produced by resubmitting `reqRevision` at time 9: status
back to `pending`, `submitted_at` stamped, `current_approver` kept (2 is
still in the chain) — and `approval_level` / `last_approver` untouched. -/
def reqResubmitted : Request :=
  { reqRevision with status := Status.pending, submitted_at := some 9 }

/-- Discriminator: is the approve response the "pending approval from X"
rejection (the response that names an expected approver)? -/
def isNotNextApproverError :
    Option (Except ApproveError (Request × HistEntry)) → Bool
  | some (Except.error (ApproveError.notNextApprover _)) => true
  | _ => false

/-! ## Helper lemmas -/

theorem supIterate_zero (g : SupGraph) (c : UserId) :
    supIterate g c 0 = some c := rfl

theorem supIterate_succ (g : SupGraph) (c : UserId) (n : Nat) :
    supIterate g c (n + 1) =
      match g c with
      | none => none
      | some s => supIterate g s n := rfl

theorem supIterate_succ_none (g : SupGraph) (c : UserId) (n : Nat)
    (hg : g c = none) : supIterate g c (n + 1) = none := by
  rw [supIterate_succ, hg]

theorem supIterate_succ_some (g : SupGraph) (c s : UserId) (n : Nat)
    (hg : g c = some s) : supIterate g c (n + 1) = supIterate g s n := by
  rw [supIterate_succ, hg]

theorem validateLoopF_visited (g : SupGraph) (selfId : UserId)
    (visited : List UserId) (c : UserId) (fuel : Nat) (hv : c ∈ visited) :
    validateLoopF g selfId visited (some c) fuel = some false := by
  cases fuel with
  | zero => rw [validateLoopF.eq_2, if_pos hv]
  | succ f => rw [validateLoopF.eq_3, if_pos hv]

theorem validateLoopF_step (g : SupGraph) (selfId : UserId)
    (visited : List UserId) (c : UserId) (f : Nat) (hv : c ∉ visited) :
    validateLoopF g selfId visited (some c) (f + 1) =
      if g c = some selfId then some false
      else validateLoopF g selfId (c :: visited) (g c) f := by
  rw [validateLoopF.eq_3, if_neg hv]

/-- If the supervisor walk from `c` hits `selfId` after `n + 1` steps, the
validation loop of `_validate_supervisor_assignment` raises (with any
visited set and any fuel of at least `n + 1`): it either meets a node
whose supervisor is `selfId` (circular-supervision raise), or meets an
already-visited node first (existing-circular-chain raise). -/
theorem validateLoopF_hits (g : SupGraph) (selfId : UserId) :
    ∀ (n : Nat) (c : UserId) (visited : List UserId) (fuel : Nat),
      supIterate g c (n + 1) = some selfId → n + 1 ≤ fuel →
      validateLoopF g selfId visited (some c) fuel = some false := by
  intro n
  induction n with
  | zero =>
    intro c visited fuel hit hfuel
    obtain ⟨f, rfl⟩ : ∃ f, fuel = f + 1 := ⟨fuel - 1, by omega⟩
    by_cases hv : c ∈ visited
    · exact validateLoopF_visited g selfId visited c (f + 1) hv
    · cases hg : g c with
      | none => rw [supIterate_succ_none g c 0 hg] at hit; cases hit
      | some s =>
        rw [supIterate_succ_some g c s 0 hg, supIterate_zero] at hit
        have hs : s = selfId := by injection hit
        rw [validateLoopF_step g selfId visited c f hv,
          if_pos (by rw [hg, hs])]
  | succ k ih =>
    intro c visited fuel hit hfuel
    obtain ⟨f, rfl⟩ : ∃ f, fuel = f + 1 := ⟨fuel - 1, by omega⟩
    by_cases hv : c ∈ visited
    · exact validateLoopF_visited g selfId visited c (f + 1) hv
    · cases hg : g c with
      | none => rw [supIterate_succ_none g c (k + 1) hg] at hit; cases hit
      | some s =>
        rw [supIterate_succ_some g c s (k + 1) hg] at hit
        rw [validateLoopF_step g selfId visited c f hv]
        by_cases hsup : g c = some selfId
        · rw [if_pos hsup]
        · rw [if_neg hsup, hg]
          exact ih s (c :: visited) f hit (by omega)

theorem approvalChainWalk_succ (g : SupGraph) (u : UserId) (fuel : Nat) :
    approvalChainWalk g (some u) (fuel + 1) =
      (approvalChainWalk g (g u) fuel).map (fun l => u :: l) := rfl

/-- The unguarded chain walk makes no progress at any fuel when started
inside the 11 ⇄ 12 supervisor cycle. -/
theorem approvalChainWalk_cycAbove (fuel : Nat) :
    approvalChainWalk supCycAbove (some 11) fuel = none ∧
    approvalChainWalk supCycAbove (some 12) fuel = none := by
  induction fuel with
  | zero => exact ⟨rfl, rfl⟩
  | succ f ih =>
    constructor
    · rw [approvalChainWalk_succ, show supCycAbove 11 = some 12 from rfl, ih.2]
      rfl
    · rw [approvalChainWalk_succ, show supCycAbove 12 = some 11 from rfl, ih.1]
      rfl

/-! ## Claim theorems -/

/-- C1: `can_transition_to` accepts exactly the pairs of the spec §4.2
table (the source's per-status lists coincide with the spec's table; in
particular from `draft` the only legal target is `pending`, and from
`rejected` or `completed` no target is legal), and `transition_to` on any
pair outside the table fails with the `ValueError` naming the illegal
(from, to) pair — raised before any mutation, so the error branch carries
no updated request and no history row. -/
theorem C1_transition_table :
    (∀ s, getValidTransitions s = specTransitionTable s) ∧
    (∀ t, canTransitionTo Status.draft t = true ↔ t = Status.pending) ∧
    (∀ t, canTransitionTo Status.rejected t = false) ∧
    (∀ t, canTransitionTo Status.completed t = false) ∧
    (∀ (g : SupGraph) (fuel : Nat) (r : Request) (t : Status) (u : UserId)
      (notes : String), canTransitionTo r.status t = false →
      transitionTo g fuel r t u notes =
        some (Except.error { fromStatus := r.status, toStatus := t })) := by
  refine ⟨by decide, by decide, by decide, by decide, ?_⟩
  intro g fuel r t u notes h
  unfold transitionTo
  rw [if_pos h]

/-- C1 witness: from `draft` the target `completed` is outside the table,
and `transition_to` refuses it with the pair ('draft', 'completed'). -/
theorem C1_transition_table_witness :
    canTransitionTo Status.draft Status.completed = false ∧
    transitionTo supEMC 10 reqDraft Status.completed 1 "" =
      some (Except.error
        { fromStatus := Status.draft, toStatus := Status.completed }) :=
  ⟨by decide,
   C1_transition_table.2.2.2.2 supEMC 10 reqDraft Status.completed 1 ""
     (by decide)⟩

/-- C2 (amended): when a request is `pending` or `in_review` and the actor
is neither the computed next approver nor an admin, `approve` fails before
its transaction — producing no mutated request and no history row (the
error branch carries no state) — with the response that names the expected
approver when `get_next_approver()` is non-null, and with the
"already fully approved" response when it is null. -/
theorem C2_wrong_actor_rejected (g : SupGraph) (fuel : Nat) (r : Request)
    (actor : UserId) (notes : String) (na : Option UserId)
    (hst : r.status = Status.pending ∨ r.status = Status.in_review)
    (hna : getNextApprover g fuel r = some na)
    (hmm : na ≠ some actor) :
    approveView g fuel r actor false notes =
      some (Except.error
        (match na with
         | some expected => ApproveError.notNextApprover expected
         | none => ApproveError.alreadyFullyApproved)) := by
  unfold approveView
  rw [if_neg (not_not_intro hst)]
  simp only [hna]
  rw [if_pos ⟨hmm, trivial⟩]
  cases na <;> rfl

/-- C2 witness: in the 1→2→3 hierarchy, with the submitted request routed
to approver 3, the non-admin actor 2 is turned away with the response
naming the expected approver 3, and nothing is produced besides that
error. -/
theorem C2_wrong_actor_rejected_witness :
    approveView supEMC 10 reqSubmitted 2 false "" =
      some (Except.error (ApproveError.notNextApprover 3)) :=
  C2_wrong_actor_rejected supEMC 10 reqSubmitted 2 "" (some 3)
    (Or.inl rfl) (by decide) (by decide)

/-- C2 counterexample: the claim as stated fails when the computed next
approver is null.  Creator 4 has no supervisor, so the pending request
`reqOrphanPending` has `get_next_approver() = None`; the non-admin actor 5
is "neither next_approver(request) nor an admin", yet the response is the
"already fully approved" error, not a `NotNextApproverError` naming an
expected approver (the state is still left unchanged). -/
theorem C2_wrong_actor_counterexample :
    approveView supNone 10 reqOrphanPending 5 false "" =
      some (Except.error ApproveError.alreadyFullyApproved) ∧
    isNotNextApproverError (approveView supNone 10 reqOrphanPending 5 false "")
      = false :=
  ⟨by decide, by decide⟩

/-- C3 (code bug): in the live hierarchy 1→2→3, submitting employee 1's
draft stores `current_approver = 2` and leaves `approval_level = 0`, and
the source's `get_next_approver` — which reads the stored
`current_approver` column and returns the chain element after it — then
yields CEO 3, while the spec's positional rule `chain[approval_level]`
(also asserted by the repository's own test
`test_get_next_approver`) yields manager 2. -/
theorem C3_next_approver_uses_stored_column :
    submitView supEMC 10 reqDraft 1 "" 5 =
      some (Except.ok (reqSubmitted,
        { user := 1, action := "submitted", level := 0, notes := "" })) ∧
    getNextApprover supEMC 10 reqSubmitted = some (some 3) ∧
    specNextApprover supEMC 10 reqSubmitted = some (some 2) ∧
    (some (3 : UserId)) ≠ (some 2) :=
  ⟨by decide, by decide, by decide, by decide⟩

/-- C4 (code bug): resubmitting after a revision request does not reset
the approval progress.  For `reqRevision` (status `revision_requested`,
`approval_level = 1`, `last_approver = 2`), `submit` by the creator
transitions to `pending`, stamps `submitted_at` and appends the
`submitted` history row at level 0 — but `approval_level` stays 1 and
`last_approver` stays 2, where the claim (and the repository's own test
`test_revision_request_flow`) requires 0 and null. -/
theorem C4_submit_does_not_reset :
    submitView supEMC 10 reqRevision 1 "" 9 =
      some (Except.ok (reqResubmitted,
        { user := 1, action := "submitted", level := 0, notes := "" })) ∧
    reqResubmitted.status = Status.pending ∧
    reqResubmitted.submitted_at = some 9 ∧
    reqResubmitted.approval_level = 1 ∧
    reqResubmitted.last_approver = some 2 :=
  ⟨by decide, rfl, rfl, rfl, rfl⟩

/-- C5 (code bug): with the chain E(1) → M(2) → C(3) of length 2, the
claimed sequence "after submit next_approver is M" fails at its first
step: after employee 1 submits, `get_next_approver` returns CEO 3 (the
element after the stored `current_approver = 2`), M is never the
then-current next approver, and M's own approval attempt is rejected with
the response naming 3.  The repository's test
`test_complete_5_level_approval_flow` expects the immediate supervisor
first. -/
theorem C5_first_approver_skipped :
    submitView supEMC 10 reqDraft 1 "" 5 =
      some (Except.ok (reqSubmitted,
        { user := 1, action := "submitted", level := 0, notes := "" })) ∧
    getNextApprover supEMC 10 reqSubmitted = some (some 3) ∧
    approveView supEMC 10 reqSubmitted 2 false "" =
      some (Except.error (ApproveError.notNextApprover 3)) :=
  ⟨by decide, by decide, by decide⟩

/-- C6 (amended): whenever A is reachable from B along supervisor edges
(B = A after 0 steps, or B a direct or transitive subordinate of A) and
A's supervisor is not already B (which is automatic in an acyclic graph),
`change_supervisor(A, B)` raises the circular-hierarchy `ValueError`
before anything is persisted: the result is the bare error, carrying no
updated graph, and no request state is read or written anywhere in the
operation. -/
theorem C6_cycle_rejected_before_persist (g : SupGraph) (a b : UserId)
    (n fuel : Nat) (hreach : supIterate g b n = some a)
    (hnotcur : g a ≠ some b) (hfuel : n ≤ fuel) :
    changeSupervisor g a (some b) fuel = some (Except.error ()) := by
  have hval : validateSupervisorAssignment g a b fuel = some false := by
    unfold validateSupervisorAssignment
    by_cases hba : b = a
    · rw [if_pos hba]
    · rw [if_neg hba]
      cases n with
      | zero =>
        rw [supIterate_zero] at hreach
        exact absurd (by injection hreach) hba
      | succ k =>
        exact validateLoopF_hits g a k b [] fuel hreach hfuel
  have hstep : changeSupervisor g a (some b) fuel =
      match validateSupervisorAssignment g a b fuel with
      | none => none
      | some false => some (Except.error ())
      | some true =>
        some (Except.ok (fun u => if u = a then some b else g u, true)) := by
    unfold changeSupervisor
    rw [if_neg hnotcur]
  rw [hstep, hval]

/-- C6 witness: in the clean hierarchy 1→2→3, employee 1 is a direct
subordinate of manager 2, and setting 2's supervisor to 1 is rejected
with the circular-hierarchy error, persisting nothing. -/
theorem C6_cycle_rejected_before_persist_witness :
    supIterate supEMC 1 1 = some 2 ∧
    changeSupervisor supEMC 2 (some 1) 10 = some (Except.error ()) :=
  ⟨by decide,
   C6_cycle_rejected_before_persist supEMC 2 1 1 10 (by decide) (by decide)
     (by decide)⟩

/-- C6 counterexample: the claim as stated fails when A's supervisor is
already B.  In the corrupted graph `supCyc` (1 ⇄ 2), user 2 is a direct
subordinate of 1 — `supIterate supCyc 2 1 = some 1` — yet
`change_supervisor(1, 2)` hits the "no change needed" short-circuit and
returns `False` without raising any circular-hierarchy error. -/
theorem C6_cycle_rejected_counterexample :
    supIterate supCyc 2 1 = some 1 ∧
    changeSupervisor supCyc 1 (some 2) 10 =
      some (Except.ok (supCyc, false)) :=
  ⟨by decide, rfl⟩

/-- C7 (code bug): the approval-chain resolver the engine actually uses,
`Request.get_approval_chain`, has no visited-set guard, and on a supervisor
graph with a persisted cycle above the creator (10 → 11 ⇄ 12) its `while`
loop never terminates: the fuelled embedding returns `none` at every fuel.
The sibling walk `User.get_hierarchy_chain` implements the guard the claim
describes and stops with the finite chain collected so far. -/
theorem C7_approval_chain_diverges_on_cycle :
    (∀ fuel, getApprovalChain supCycAbove 10 fuel = none) ∧
    getHierarchyChain supCycAbove 10 30 = some [10, 11, 12] := by
  constructor
  · intro fuel
    show approvalChainWalk supCycAbove (supCycAbove 10) fuel = none
    rw [show supCycAbove 10 = some 11 from rfl]
    exact (approvalChainWalk_cycAbove fuel).1
  · decide

/-- C8 (amended): `reject` succeeds exactly when the status is in
`{pending, in_review, approved, purchasing}` and the actor is the computed
next approver or an admin — the view consults no purchasing capability in
any status — and on success it sets the terminal `rejected` status and
appends a history row with action `rejected`. -/
theorem C8_reject_conditions (g : SupGraph) (fuel : Nat) (r : Request)
    (actor : UserId) (isAdmin : Bool) (notes : String) (na : Option UserId)
    (hna : getNextApprover g fuel r = some na) :
    ((∃ res, rejectView g fuel r actor isAdmin notes = some (Except.ok res)) ↔
      ((r.status = Status.pending ∨ r.status = Status.in_review ∨
        r.status = Status.approved ∨ r.status = Status.purchasing) ∧
       (na = some actor ∨ isAdmin = true))) ∧
    (∀ r2 h2, rejectView g fuel r actor isAdmin notes =
        some (Except.ok (r2, h2)) →
      r2.status = Status.rejected ∧ h2.action = "rejected") := by
  by_cases hst : (r.status = Status.pending ∨ r.status = Status.in_review ∨
      r.status = Status.approved ∨ r.status = Status.purchasing)
  · have hnotdraft : r.status ≠ Status.draft := by
      rcases hst with h | h | h | h <;> rw [h] <;> decide
    obtain ⟨chain, hc⟩ : ∃ chain,
        getApprovalChain g r.created_by fuel = some chain := by
      unfold getNextApprover at hna
      rw [if_neg hnotdraft] at hna
      cases hcc : getApprovalChain g r.created_by fuel with
      | none => simp [hcc] at hna
      | some chain => exact ⟨chain, rfl⟩
    have hcan : canTransitionTo r.status Status.rejected = true := by
      rcases hst with h | h | h | h <;> rw [h] <;> decide
    have htrans : transitionTo g fuel r Status.rejected actor notes =
        some (Except.ok ({ r with status := Status.rejected },
          { user := actor, action := "rejected",
            level := approvalLevelIn chain actor, notes := notes })) := by
      unfold transitionTo
      rw [if_neg (by simp [hcan])]
      simp only [hc]
      rfl
    by_cases hauth : (na = some actor ∨ isAdmin = true)
    · have hcond : ¬ (na ≠ some actor ∧ isAdmin = false) := by
        rintro ⟨h1, h2⟩
        rcases hauth with h | h
        · exact h1 h
        · rw [h] at h2
          cases h2
      have hres : rejectView g fuel r actor isAdmin notes =
          some (Except.ok ({ r with status := Status.rejected },
            { user := actor, action := "rejected",
              level := approvalLevelIn chain actor, notes := notes })) := by
        unfold rejectView
        rw [if_neg (not_not_intro hst)]
        simp only [hna]
        rw [if_neg hcond]
        simp only [htrans]
      refine ⟨⟨fun _ => ⟨hst, hauth⟩, fun _ => ⟨_, hres⟩⟩, ?_⟩
      intro r2 h2 hok
      rw [hres] at hok
      simp only [Option.some.injEq, Except.ok.injEq, Prod.mk.injEq] at hok
      obtain ⟨hr2, hh2⟩ := hok
      exact ⟨by rw [← hr2], by rw [← hh2]⟩
    · have hcond : na ≠ some actor ∧ isAdmin = false := by
        refine ⟨fun h => hauth (Or.inl h), ?_⟩
        cases hAdm : isAdmin
        · rfl
        · exact absurd (Or.inr hAdm) hauth
      have hres : rejectView g fuel r actor isAdmin notes =
          some (Except.error RejectError.notAuthorized) := by
        unfold rejectView
        rw [if_neg (not_not_intro hst)]
        simp only [hna]
        rw [if_pos hcond]
      constructor
      · constructor
        · rintro ⟨res, hok⟩
          rw [hres] at hok
          simp at hok
        · rintro ⟨_, h⟩
          exact absurd h hauth
      · intro r2 h2 hok
        rw [hres] at hok
        simp at hok
  · have hres : rejectView g fuel r actor isAdmin notes =
        some (Except.error (RejectError.invalidState r.status)) := by
      unfold rejectView
      rw [if_pos hst]
    constructor
    · constructor
      · rintro ⟨res, hok⟩
        rw [hres] at hok
        simp at hok
      · rintro ⟨h1, _⟩
        exact absurd h1 hst
    · intro r2 h2 hok
      rw [hres] at hok
      simp at hok

/-- C8 witness: in the hierarchy 1→2→3, the approved request of employee 1
is routed to CEO 3, and 3 (a non-admin) rejects it successfully. -/
theorem C8_reject_conditions_witness :
    (∃ res, rejectView supEMC 10 reqApprovedEMC 3 false "" =
      some (Except.ok res)) :=
  ((C8_reject_conditions supEMC 10 reqApprovedEMC 3 false "" (some 3)
      (by decide)).1).mpr
    ⟨Or.inr (Or.inr (Or.inl rfl)), Or.inl rfl⟩

/-- C8 counterexample: the purchasing-capability disjunct of the claim is
absent from the code.  `reqPurchasingEMC` is in the `purchasing` status and
actor 7 is not in the chain and not an admin; whatever purchasing
capability 7 holds is never consulted by the view (the embedded `reject`
takes no capability input because the source reads none), and the call
fails with "Not authorized to reject this request" where the claim says it
succeeds. -/
theorem C8_reject_counterexample :
    rejectView supEMC 10 reqPurchasingEMC 7 false "" =
      some (Except.error RejectError.notAuthorized) := by
  decide

/-- C9: `get_completed_requests_in_period` returns exactly the stored
requests whose status is `completed` and whose `updated_at` lies within
the inclusive period bounds — no other eligibility condition is applied,
and no request in any other status is ever returned. -/
theorem C9_completed_in_period (db : List Request)
    (periodStart periodEnd : Nat) (r : Request) :
    r ∈ getCompletedRequestsInPeriod db periodStart periodEnd ↔
      (r ∈ db ∧ r.status = Status.completed ∧
       periodStart ≤ r.updated_at ∧ r.updated_at ≤ periodEnd) := by
  simp [getCompletedRequestsInPeriod, List.mem_filter]

/-- C10: for a request past `draft` whose stored `current_approver` no
longer appears in the live approval chain of its creator,
`get_next_approver` returns `None` (the `chain.index` lookup raises
`ValueError` and the handler returns `None`): the request presents as
having no remaining approver rather than rerouting to another chain
member. -/
theorem C10_removed_approver_yields_none (g : SupGraph) (fuel : Nat)
    (r : Request) (u : UserId) (chain : List UserId)
    (hs : r.status ≠ Status.draft) (hca : r.current_approver = some u)
    (hchain : getApprovalChain g r.created_by fuel = some chain)
    (hmem : u ∉ chain) :
    getNextApprover g fuel r = some none := by
  unfold getNextApprover
  rw [if_neg hs, hchain]
  have hidx : chain.indexOf? u = none := by
    rw [List.indexOf?_eq_none_iff]
    intro x hx hbeq
    exact hmem ((beq_iff_eq.mp hbeq) ▸ hx)
  simp [nextFromChain, hca, hidx]

/-- C10 witness: stored approver 99 was removed from the hierarchy 1→2→3;
the in-review request of creator 1 reports no next approver. -/
theorem C10_removed_approver_yields_none_witness :
    getNextApprover supEMC 10 reqGhostApprover = some none :=
  C10_removed_approver_yields_none supEMC 10 reqGhostApprover 99 [2, 3]
    (by decide) rfl (by decide) (by decide)
